import Mathlib

/-!
Verification of the transome command-line translator.

This file gives a shallow embedding of the core logic of the repository
(`src/config.rs`, `src/cli.rs`, `src/translator.rs`) and proves theorems
about it.  Strings are Lean `String`s; the process environment is modelled
as a function `String → Option String`; the HTTP transport is modelled as
an oracle parameter.  Rust `str::trim` is modelled by `strTrim` (dropping
whitespace characters from both ends) and Rust `str::contains` by
`strContains` (substring occurrence).
-/

namespace Transome

/-- Does the pattern match at the head of the list?  (helper for substring search). -/
def leadMatch : List Char → List Char → Bool
  | [], _ => true
  | _ :: _, [] => false
  | a :: as, b :: bs => a == b && leadMatch as bs

/-- Does the pattern occur anywhere in the list?  (embeds Rust `str::contains`). -/
def occursIn : List Char → List Char → Bool
  | pat, [] => pat.isEmpty
  | pat, s@(_ :: t) => leadMatch pat s || occursIn pat t

/-- Embeds Rust `str::contains`: `pat` occurs as a contiguous substring of `s`. -/
def strContains (s pat : String) : Bool :=
  occursIn pat.data s.data

/-- Drop whitespace from both ends of a character list (helper for `strTrim`). -/
def trimChars (l : List Char) : List Char :=
  ((l.dropWhile Char.isWhitespace).reverse.dropWhile Char.isWhitespace).reverse

/-- Embeds Rust `str::trim`: remove leading and trailing whitespace. -/
def strTrim (s : String) : String :=
  String.mk (trimChars s.data)

/-! ### config.rs : the model registry -/

/-- The static model-name → endpoint-URL table of `get_model_to_url`
(`src/config.rs` lines 33-66). -/
def modelTable : List (String × String) :=
  [("gemini-2.5-pro", "https://generativelanguage.googleapis.com/v1beta/openai"),
   ("gemini-2.5-flash", "https://generativelanguage.googleapis.com/v1beta/openai"),
   ("gemini-2.5-flash-lite", "https://generativelanguage.googleapis.com/v1beta/openai"),
   ("gemini-1.5-pro", "https://generativelanguage.googleapis.com/v1beta/openai"),
   ("gemini-1.5-flash", "https://generativelanguage.googleapis.com/v1beta/openai"),
   ("gpt-4", "https://api.openai.com/v1"),
   ("gpt-4-turbo", "https://api.openai.com/v1"),
   ("gpt-4o", "https://api.openai.com/v1"),
   ("gpt-4o-mini", "https://api.openai.com/v1"),
   ("gpt-3.5-turbo", "https://api.openai.com/v1"),
   ("gpt-3.5-turbo-16k", "https://api.openai.com/v1")]

/-- The registered model names (the keys of `modelTable`). -/
def registeredModels : List String :=
  modelTable.map (fun p => p.1)

/-- Embeds `config::get_model_url` (`src/config.rs` lines 69-72): exact
hash-map lookup of the model name. -/
def get_model_url (model : String) : Option String :=
  (modelTable.find? (fun p => p.1 == model)).map (fun p => p.2)

/-- Embeds `config::get_provider_name` (`src/config.rs` lines 75-91):
resolve the model to its URL if registered, otherwise treat the input
itself as a URL, then infer the provider by substring match. -/
def get_provider_name (model_or_url : String) : String :=
  let url := (get_model_url model_or_url).getD model_or_url
  if strContains url "generativelanguage.googleapis.com" then "Google Gemini"
  else if strContains url "api.openai.com" then "OpenAI"
  else "Other"

/-- Embeds `config::is_model_supported` (`src/config.rs` lines 185-187). -/
def is_model_supported (model_name : String) : Bool :=
  (get_model_url model_name).isSome

/-- Embeds `config::get_env_var_name_for_model` (`src/config.rs` lines 195-203). -/
def get_env_var_name_for_model (model : String) : Option String :=
  match get_provider_name model with
  | "OpenAI" => some "OPENAI_API_KEY"
  | "Google Gemini" => some "GOOGLE_AI_API_KEY"
  | _ => none

/-! ### cli.rs : CLI structure, key resolution and validation -/

/-- Embeds the `Cli` argument structure (`src/cli.rs` lines 14-37). -/
structure Cli where
  text : Option String
  model : String
  url : Option String
  key : Option String
  prompt : String
  list_models : Bool

/-- The process environment: variable name to optional value
(`std::env::var` succeeding exactly when the value is `some`). -/
def Env : Type := String → Option String

/-- The three failure cases of `Cli::resolve_api_key`, one per `bail!` site
(`src/cli.rs` lines 60-71, 77-91, 92-106). -/
inductive KeyError where
  | noEnvVar (model : String)
  | envNotSet (varName model : String)
  | envEmpty (varName model : String)
deriving DecidableEq

/-- The error string of the "cannot determine environment variable" failure
(`src/cli.rs` lines 61-71). -/
def noEnvVarMsg (model : String) : String :=
  "无法为模型 \x27" ++ (model ++ ("\x27 确定对应的环境变量。\n\n支持的模型及其环境变量：\n- OpenAI 模型 (gpt-4, gpt-4o, gpt-3.5-turbo 等): OPENAI_API_KEY\n- Google Gemini 模型 (gemini-2.5-flash, gemini-1.5-pro 等): GOOGLE_AI_API_KEY\n\n解决方法：\n1. 使用支持的模型: transome -m <支持的模型名称> <文本>\n2. 手动提供 API 密钥: transome -k <your_api_key> -m " ++ (model ++ " <文本>\n3. 查看所有支持的模型: transome --list-models")))

/-- The error string of the "environment variable not set" failure
(`src/cli.rs` lines 94-105). -/
def envNotSetMsg (varName model : String) : String :=
  "环境变量 " ++ (varName ++ (" 未设置。\n\n解决方法：\n1. 设置环境变量: " ++ (("export " ++ (varName ++ "=<your_api_key>")) ++ ("\n2. 或者手动提供密钥: transome -k <your_api_key> -m " ++ (model ++ " <文本>\n\n获取 API 密钥的方法：\n- OpenAI API 密钥: https://platform.openai.com/api-keys\n- Google AI API 密钥: https://aistudio.google.com/app/apikey")))))

/-- The error string of the "environment variable set but empty" failure
(`src/cli.rs` lines 79-90). -/
def envEmptyMsg (varName model : String) : String :=
  "环境变量 " ++ (varName ++ (" 已设置但为空。\n\n解决方法：\n1. 设置环境变量: " ++ (("export " ++ (varName ++ "=<your_api_key>")) ++ ("\n2. 或者手动提供密钥: transome -k <your_api_key> -m " ++ (model ++ " <文本>\n\n获取 API 密钥的方法：\n- OpenAI API 密钥: https://platform.openai.com/api-keys\n- Google AI API 密钥: https://aistudio.google.com/app/apikey")))))

/-- The message rendered for each `KeyError` (the `anyhow!`/`bail!` strings
of `Cli::resolve_api_key`). -/
def keyErrorMsg : KeyError → String
  | .noEnvVar model => noEnvVarMsg model
  | .envNotSet varName model => envNotSetMsg varName model
  | .envEmpty varName model => envEmptyMsg varName model

/-- Embeds `Cli::resolve_api_key` (`src/cli.rs` lines 52-108): explicit key
first, else read the provider-specific environment variable, rejecting
unset and trim-empty values. -/
def resolve_api_key (env : Env) (cli : Cli) : Except KeyError String :=
  match cli.key with
  | some key => .ok key
  | none =>
    match get_env_var_name_for_model cli.model with
    | none => .error (.noEnvVar cli.model)
    | some varName =>
      match env varName with
      | some value =>
        if strTrim value = "" then .error (.envEmpty varName cli.model)
        else .ok value
      | none => .error (.envNotSet varName cli.model)

/-- The failure cases of `Cli::validate`, one per `bail!`/`map_err` site
(`src/cli.rs` lines 145-175). -/
inductive ValidateError where
  | textEmpty
  | textMissing
  | keyError (e : KeyError)
  | modelUnsupported (model : String)
deriving DecidableEq

/-- Embeds `Cli::validate` (`src/cli.rs` lines 138-178): skip everything in
list-models mode, then check text, then key resolution, then (without a
custom URL) model support, returning the first failure. -/
def validate (env : Env) (cli : Cli) : Except ValidateError Unit :=
  if cli.list_models then .ok ()
  else
    match cli.text with
    | none => .error .textMissing
    | some text =>
      if strTrim text = "" then .error .textEmpty
      else
        match resolve_api_key env cli with
        | .error e => .error (.keyError e)
        | .ok _ =>
          if cli.url.isNone && !(is_model_supported cli.model) then
            .error (.modelUnsupported cli.model)
          else .ok ()

/-! ### translator.rs : request building, error classification, response parsing -/

/-- Embeds the default translation prompt `PROMPT` (`src/translator.rs` line 11). -/
def PROMPT : String :=
  "你是一个极简翻译工具，接下来我将输入一段内容，请按照以下规则将它翻译：1、如果输入内容是中文则翻译成英文，反之亦然。2、仅输出翻译后的内容，不要携带其他内容。3、如果翻译后的内容是单个词语，则首字母不需要大写。"

/-- A chat-completion request as built by `Translator::translate`: the target
model and the ordered message contents. -/
structure ChatRequest where
  model : String
  messages : List String
deriving DecidableEq

/-- The classification kinds of the transport-error handler; `classifyApiError`
picks one by ordered substring rules. -/
inductive ApiErrorKind where
  | authentication
  | notFound
  | rateLimit
  | network
  | generic
deriving DecidableEq

/-- The failure cases of `Translator::translate`, one per error-return site
(`src/translator.rs` lines 37-42, 80-116, 119-125, 138-147). -/
inductive TransError where
  | emptyText
  | apiError (kind : ApiErrorKind) (msg : String)
  | noResults
  | allEmpty
deriving DecidableEq

/-- Embeds the error-classification chain of `Translator::translate`
(`src/translator.rs` lines 80-115): ordered if/else substring tests on the
transport error text, first match wins. -/
def classifyApiError (msg : String) : ApiErrorKind :=
  if strContains msg "401" || strContains msg "authentication" then .authentication
  else if strContains msg "404" || strContains msg "not found" then .notFound
  else if strContains msg "429" || strContains msg "rate limit" then .rateLimit
  else if strContains msg "timeout" || strContains msg "connection" then .network
  else .generic

/-- Embeds the request-building phase of `Translator::translate`
(`src/translator.rs` lines 36-76): reject trim-empty text, then build the
chat request with two ordered messages — the prompt (defaulting to
`PROMPT`), then the raw input text. -/
def buildChatRequest (model text : String) (prompt : Option String) :
    Except TransError ChatRequest :=
  if strTrim text = "" then .error .emptyText
  else .ok ⟨model, [prompt.getD PROMPT, text]⟩

/-- One step of the content-merging loop of `Translator::translate`
(`src/translator.rs` lines 129-136): skip missing contents; before a present
content, push a newline unless the accumulator is still empty. -/
def stepChoice (r : String) (choice : Option String) : String :=
  match choice with
  | none => r
  | some content => (if r = "" then r else r ++ "\x0a") ++ content

/-- The content-merging loop of `Translator::translate`
(`src/translator.rs` lines 128-136), modelling a choice as its optional
message content. -/
def joinContents (choices : List (Option String)) : String :=
  choices.foldl stepChoice ""

/-- Embeds the response-parsing phase of `Translator::translate`
(`src/translator.rs` lines 118-149): zero choices fail with the no-results
error; a merged result that trims to empty fails with the all-empty error;
otherwise the trimmed merge is returned. -/
def parseResponse (choices : List (Option String)) : Except TransError String :=
  if choices.isEmpty then .error .noResults
  else
    let result := joinContents choices
    if strTrim result = "" then .error .allEmpty
    else .ok (strTrim result)

/-- Embeds `Translator::translate` (`src/translator.rs` lines 35-150) end to
end, with the HTTP transport as an oracle: an error string, or the
choice contents of the response. -/
def translate (model text : String) (prompt : Option String)
    (send : ChatRequest → Except String (List (Option String))) :
    Except TransError String :=
  match buildChatRequest model text prompt with
  | .error e => .error e
  | .ok req =>
    match send req with
    | .error msg => .error (.apiError (classifyApiError msg) msg)
    | .ok choices => parseResponse choices

/-! ### spec-side definitions -/

/-- The tail of a newline-separated join: each entry is preceded by one
newline (helper for `joinNL`). -/
def joinTail : List String → String
  | [] => ""
  | c :: l => "\x0a" ++ (c ++ joinTail l)

/-- Join a list of strings with a single newline between consecutive
entries. -/
def joinNL : List String → String
  | [] => ""
  | c :: l => c ++ joinTail l

/-- Modelled from the spec wording of claim C1 (not from the source): the
concatenation of all NON-EMPTY choice contents, in order, separated by a
single newline, with the final string trimmed. -/
def specClaimedResult (choices : List (Option String)) : String :=
  strTrim (joinNL ((choices.filterMap id).filter (fun c => !(c == ""))))

deriving instance DecidableEq for Except

/-! ### helper lemmas -/

theorem string_eq_empty_iff (s : String) : s = "" ↔ s.data = [] :=
  String.ext_iff

theorem append_ne_empty_left (r s : String) (h : r ≠ "") : r ++ s ≠ "" := by
  intro hc
  apply h
  rw [string_eq_empty_iff] at hc ⊢
  rw [String.data_append, List.append_eq_nil] at hc
  exact hc.1

theorem foldl_stepChoice_of_ne (cs : List (Option String)) (r : String) (h : r ≠ "") :
    List.foldl stepChoice r cs = r ++ joinTail (cs.filterMap id) := by
  induction cs generalizing r with
  | nil => simp [joinTail]
  | cons oc cs ih =>
    cases oc with
    | none => simpa [stepChoice] using ih r h
    | some c =>
      have h2 : (r ++ "\x0a") ++ c ≠ "" :=
        append_ne_empty_left _ _ (append_ne_empty_left _ _ h)
      have hstep : stepChoice r (some c) = (r ++ "\x0a") ++ c := by
        simp [stepChoice, h]
      rw [List.foldl_cons, hstep, ih _ h2,
        List.filterMap_cons_some (show id (some c) = some c from rfl)]
      simp only [joinTail, String.append_assoc]

theorem joinContents_characterization (cs : List (Option String)) :
    joinContents cs = joinNL ((cs.filterMap id).dropWhile (fun c => c == "")) := by
  unfold joinContents
  induction cs with
  | nil => rfl
  | cons oc cs ih =>
    cases oc with
    | none => simpa [stepChoice] using ih
    | some c =>
      by_cases hc : c = ""
      · subst hc
        simpa [stepChoice] using ih
      · have hstep : stepChoice "" (some c) = c := by simp [stepChoice]
        rw [List.foldl_cons, hstep, foldl_stepChoice_of_ne cs c hc,
          List.filterMap_cons_some (show id (some c) = some c from rfl),
          List.dropWhile_cons_of_neg (by simpa using hc)]
        rfl

theorem trimChars_eq_nil_iff (l : List Char) :
    trimChars l = [] ↔ ∀ c ∈ l, c.isWhitespace := by
  unfold trimChars
  rw [List.reverse_eq_nil_iff, List.dropWhile_eq_nil_iff]
  constructor
  · intro h c hc
    rcases (List.mem_append.mp
      ((List.takeWhile_append_dropWhile Char.isWhitespace l) ▸ hc)) with h1 | h1
    · exact List.mem_takeWhile_imp h1
    · exact h c (List.mem_reverse.mpr h1)
  · intro h c hc
    exact h c ((List.dropWhile_sublist Char.isWhitespace).mem (List.mem_reverse.mp hc))

theorem strTrim_eq_empty_iff (s : String) :
    strTrim s = "" ↔ ∀ c ∈ s.data, c.isWhitespace := by
  rw [strTrim, string_eq_empty_iff]
  exact trimChars_eq_nil_iff s.data

theorem joinContents_all_whitespace (cs : List (Option String))
    (H : ∀ oc ∈ cs, ∀ c, oc = some c → ∀ ch ∈ c.data, ch.isWhitespace) :
    ∀ ch ∈ (joinContents cs).data, ch.isWhitespace := by
  unfold joinContents
  suffices h : ∀ r : String, (∀ ch ∈ r.data, ch.isWhitespace) →
      ∀ ch ∈ (List.foldl stepChoice r cs).data, ch.isWhitespace by
    exact h "" (fun ch hch => nomatch hch)
  induction cs with
  | nil => intro r hr; simpa using hr
  | cons oc cs ih =>
    intro r hr
    cases oc with
    | none =>
      simp only [List.foldl_cons, stepChoice]
      exact ih (fun oc hoc => H oc (List.mem_cons_of_mem _ hoc)) r hr
    | some c =>
      simp only [List.foldl_cons, stepChoice]
      apply ih (fun oc hoc => H oc (List.mem_cons_of_mem _ hoc))
      intro ch hch
      have hty : ch ∈ ((if r = "" then r else r ++ "\x0a") ++ c).data := hch
      rw [String.data_append, List.mem_append] at hty
      rcases hty with h1 | h1
      · by_cases hre : r = ""
        · rw [if_pos hre] at h1; exact hr ch h1
        · rw [if_neg hre, String.data_append, List.mem_append] at h1
          rcases h1 with h2 | h2
          · exact hr ch h2
          · have : ch = '\x0a' := by simpa using h2
            subst this; decide
      · exact H (some c) (List.mem_cons_self _ _) c rfl ch h1

/-- The string `sub` occurs as a contiguous substring of `s`. -/
def StrHasSub (s sub : String) : Prop := ∃ a b : String, s = a ++ (sub ++ b)

/-! ### claim theorems -/

/-- C4: whenever an explicit API key is provided, `resolve_api_key` returns
exactly that key, regardless of the model name, of the environment, and of
the provider the model belongs to. -/
theorem c4_explicit_key_priority (env : Env) (cli : Cli) (k : String)
    (h : cli.key = some k) : resolve_api_key env cli = .ok k := by
  simp [resolve_api_key, h]

/-- C4 witness: model "gpt-4" with env `OPENAI_API_KEY` set and explicit key
"X" resolves to "X". -/
theorem c4_explicit_key_priority_witness :
    resolve_api_key (fun v => if v = "OPENAI_API_KEY" then some "env-key-456" else none)
      ⟨some "hello", "gpt-4", none, some "X", "p", false⟩ = .ok "X" :=
  c4_explicit_key_priority _ _ "X" rfl

/-- C9: an explicitly provided key is never validated for emptiness: an
empty or whitespace-only explicit key is returned as-is, while an
environment value that trims to empty is rejected. -/
theorem c9_explicit_key_unvalidated :
    (∀ (env : Env) (cli : Cli) (k : String), cli.key = some k → strTrim k = "" →
      resolve_api_key env cli = .ok k) ∧
    (∀ (env : Env) (cli : Cli) (v val : String), cli.key = none →
      get_env_var_name_for_model cli.model = some v → env v = some val →
      strTrim val = "" →
      resolve_api_key env cli = .error (.envEmpty v cli.model)) := by
  constructor
  · intro env cli k hk _
    simp [resolve_api_key, hk]
  · intro env cli v val hk hv henv hval
    simp [resolve_api_key, hk, hv, henv, hval]

/-- C9 witness: the explicit key "" is accepted verbatim, while the
whitespace-only environment value is rejected. -/
theorem c9_explicit_key_unvalidated_witness :
    resolve_api_key (fun _ => none) ⟨some "hello", "gpt-4", none, some "", "p", false⟩
        = .ok "" ∧
    resolve_api_key (fun v => if v = "OPENAI_API_KEY" then some "   " else none)
        ⟨some "hello", "gpt-4", none, none, "p", false⟩
        = .error (.envEmpty "OPENAI_API_KEY" "gpt-4") :=
  ⟨c9_explicit_key_unvalidated.1 _ _ "" rfl (by decide),
   c9_explicit_key_unvalidated.2 _ _ "OPENAI_API_KEY" "   " rfl (by decide) rfl (by decide)⟩

/-- C10: when the list-models flag is set, `validate` returns Ok
unconditionally: no text, key, or model check runs. -/
theorem c10_list_models_skip (env : Env) (cli : Cli)
    (h : cli.list_models = true) : validate env cli = .ok () := by
  simp [validate, h]

/-- C10 witness: validation succeeds in list-models mode even with no text,
an unsupported model and no credentials. -/
theorem c10_list_models_skip_witness :
    validate (fun _ => none) ⟨none, "unsupported-model", none, none, "p", true⟩ = .ok () :=
  c10_list_models_skip _ _ rfl

/-- C3: outside list-models mode, `validate` checks the text (present and
non-whitespace), then key resolvability, then (only without an explicit
URL) model support; the first failing check determines the error and later
checks never run — in particular whitespace-only text fails regardless of
the environment, key and model, and a key failure is reported regardless
of model support. -/
theorem c3_validate_order :
    (∀ (env : Env) (cli : Cli), cli.list_models = false → cli.text = none →
      validate env cli = .error .textMissing) ∧
    (∀ (env : Env) (cli : Cli) (t : String), cli.list_models = false →
      cli.text = some t → strTrim t = "" →
      validate env cli = .error .textEmpty) ∧
    (∀ (env : Env) (cli : Cli) (t : String) (e : KeyError), cli.list_models = false →
      cli.text = some t → strTrim t ≠ "" →
      resolve_api_key env cli = .error e →
      validate env cli = .error (.keyError e)) ∧
    (∀ (env : Env) (cli : Cli) (t k : String), cli.list_models = false →
      cli.text = some t → strTrim t ≠ "" →
      resolve_api_key env cli = .ok k →
      cli.url = none → is_model_supported cli.model = false →
      validate env cli = .error (.modelUnsupported cli.model)) ∧
    (∀ (env : Env) (cli : Cli) (t k : String), cli.list_models = false →
      cli.text = some t → strTrim t ≠ "" →
      resolve_api_key env cli = .ok k →
      (cli.url.isNone && !(is_model_supported cli.model)) = false →
      validate env cli = .ok ()) := by
  refine ⟨?_, ?_, ?_, ?_, ?_⟩
  · intro env cli hlm ht
    simp [validate, hlm, ht]
  · intro env cli t hlm ht htrim
    simp [validate, hlm, ht, htrim]
  · intro env cli t e hlm ht htrim hkey
    simp [validate, hlm, ht, htrim, hkey]
  · intro env cli t k hlm ht htrim hkey hurl hsup
    simp [validate, hlm, ht, htrim, hkey, hurl, hsup]
  · intro env cli t k hlm ht htrim hkey hcond
    simp [validate, hlm, ht, htrim, hkey, hcond]

/-- C3 witness: whitespace-only text fails with the text error before any
key or model resolution (here both would also fail), and the other
branches are exercised at concrete inputs. -/
theorem c3_validate_order_witness :
    validate (fun _ => none) ⟨some "   ", "unsupported-model", none, none, "p", false⟩
        = .error .textEmpty ∧
    validate (fun _ => none) ⟨some "hi", "gpt-4", none, none, "p", false⟩
        = .error (.keyError (.envNotSet "OPENAI_API_KEY" "gpt-4")) ∧
    validate (fun _ => none) ⟨some "hi", "unsupported-model", none, some "k", "p", false⟩
        = .error (.modelUnsupported "unsupported-model") :=
  ⟨c3_validate_order.2.1 _ _ "   " rfl rfl (by decide),
   c3_validate_order.2.2.1 _ _ "hi" (.envNotSet "OPENAI_API_KEY" "gpt-4") rfl rfl
     (by decide) (by decide),
   c3_validate_order.2.2.2.1 _ _ "hi" "k" rfl rfl (by decide) (by decide) rfl (by decide)⟩

/-- C5: without an explicit key, a determinable environment variable that is
unset yields the "not set" error and a set-but-trim-empty value yields the
distinct "set but empty" error — the key is never accepted; the "not set"
message carries the exact export remediation and the per-provider
credential URLs. -/
theorem c5_env_key_errors :
    (∀ (env : Env) (cli : Cli) (v : String), cli.key = none →
      get_env_var_name_for_model cli.model = some v → env v = none →
      resolve_api_key env cli = .error (.envNotSet v cli.model)) ∧
    (∀ (env : Env) (cli : Cli) (v val : String), cli.key = none →
      get_env_var_name_for_model cli.model = some v → env v = some val →
      strTrim val = "" →
      resolve_api_key env cli = .error (.envEmpty v cli.model)) ∧
    (∀ v m : String,
      StrHasSub (keyErrorMsg (.envNotSet v m)) ("export " ++ (v ++ "=<your_api_key>")) ∧
      StrHasSub (keyErrorMsg (.envNotSet v m)) "https://platform.openai.com/api-keys" ∧
      StrHasSub (keyErrorMsg (.envNotSet v m)) "https://aistudio.google.com/app/apikey") ∧
    (∀ v m : String, KeyError.envNotSet v m ≠ KeyError.envEmpty v m) := by
  refine ⟨?_, ?_, ?_, ?_⟩
  · intro env cli v hk hv henv
    simp [resolve_api_key, hk, hv, henv]
  · intro env cli v val hk hv henv hval
    simp [resolve_api_key, hk, hv, henv, hval]
  · intro v m
    refine ⟨⟨"环境变量 " ++ (v ++ " 未设置。\n\n解决方法：\n1. 设置环境变量: "),
        "\n2. 或者手动提供密钥: transome -k <your_api_key> -m " ++
          (m ++ " <文本>\n\n获取 API 密钥的方法：\n- OpenAI API 密钥: https://platform.openai.com/api-keys\n- Google AI API 密钥: https://aistudio.google.com/app/apikey"),
        ?_⟩, ?_, ?_⟩
    · simp [keyErrorMsg, envNotSetMsg, String.append_assoc]
    · have hsplit : (" <文本>\n\n获取 API 密钥的方法：\n- OpenAI API 密钥: https://platform.openai.com/api-keys\n- Google AI API 密钥: https://aistudio.google.com/app/apikey" : String)
          = " <文本>\n\n获取 API 密钥的方法：\n- OpenAI API 密钥: " ++
            ("https://platform.openai.com/api-keys" ++
              "\n- Google AI API 密钥: https://aistudio.google.com/app/apikey") := rfl
      refine ⟨"环境变量 " ++ (v ++ (" 未设置。\n\n解决方法：\n1. 设置环境变量: " ++
          (("export " ++ (v ++ "=<your_api_key>")) ++
            ("\n2. 或者手动提供密钥: transome -k <your_api_key> -m " ++
              (m ++ " <文本>\n\n获取 API 密钥的方法：\n- OpenAI API 密钥: "))))),
        "\n- Google AI API 密钥: https://aistudio.google.com/app/apikey", ?_⟩
      simp only [keyErrorMsg, envNotSetMsg, hsplit, String.append_assoc]
    · have hsplit : (" <文本>\n\n获取 API 密钥的方法：\n- OpenAI API 密钥: https://platform.openai.com/api-keys\n- Google AI API 密钥: https://aistudio.google.com/app/apikey" : String)
          = (" <文本>\n\n获取 API 密钥的方法：\n- OpenAI API 密钥: https://platform.openai.com/api-keys\n- Google AI API 密钥: " ++
              "https://aistudio.google.com/app/apikey") := rfl
      refine ⟨"环境变量 " ++ (v ++ (" 未设置。\n\n解决方法：\n1. 设置环境变量: " ++
          (("export " ++ (v ++ "=<your_api_key>")) ++
            ("\n2. 或者手动提供密钥: transome -k <your_api_key> -m " ++
              (m ++ " <文本>\n\n获取 API 密钥的方法：\n- OpenAI API 密钥: https://platform.openai.com/api-keys\n- Google AI API 密钥: "))))),
        "", ?_⟩
      simp only [keyErrorMsg, envNotSetMsg, hsplit, String.append_assoc, String.append_empty]
  · intro v m h
    cases h

/-- C5 witness: with `OPENAI_API_KEY` absent the "not set" error is produced
for model "gpt-4", and with it set to "   " the distinct "set but empty"
error is produced; the "not set" message contains the export remediation. -/
theorem c5_env_key_errors_witness :
    resolve_api_key (fun _ => none) ⟨some "hi", "gpt-4", none, none, "p", false⟩
        = .error (.envNotSet "OPENAI_API_KEY" "gpt-4") ∧
    resolve_api_key (fun v => if v = "OPENAI_API_KEY" then some " " else none)
        ⟨some "hi", "gpt-4", none, none, "p", false⟩
        = .error (.envEmpty "OPENAI_API_KEY" "gpt-4") ∧
    StrHasSub (keyErrorMsg (.envNotSet "OPENAI_API_KEY" "gpt-4"))
        ("export " ++ ("OPENAI_API_KEY" ++ "=<your_api_key>")) :=
  ⟨c5_env_key_errors.1 _ _ "OPENAI_API_KEY" rfl (by decide) rfl,
   c5_env_key_errors.2.1 _ _ "OPENAI_API_KEY" " " rfl (by decide) rfl (by decide),
   (c5_env_key_errors.2.2.1 "OPENAI_API_KEY" "gpt-4").1⟩

/-- C2 counterexample: "api.openai.com" is not a registered model name, yet
`get_env_var_name_for_model` maps it to `OPENAI_API_KEY` (the name is
treated as a URL when registry lookup fails), so unknown names do not all
yield None. -/
theorem c2_model_lookup_counterexample :
    registeredModels.contains "api.openai.com" = false ∧
    get_env_var_name_for_model "api.openai.com" = some "OPENAI_API_KEY" := by
  constructor
  · decide
  · decide

/-- C2 (amended): `get_model_url` returns None on every unregistered name
(matching is case-sensitive and untrimmed); `get_env_var_name_for_model`
on an unregistered name falls back to URL-substring provider inference —
`GOOGLE_AI_API_KEY` when the string contains the Gemini host,
`OPENAI_API_KEY` when it contains the OpenAI host, None otherwise; each
registered OpenAI model maps to `OPENAI_API_KEY` and each registered
Gemini model to `GOOGLE_AI_API_KEY`; all lookups are total functions. -/
theorem c2_model_lookup :
    (∀ m : String, ¬ m ∈ registeredModels → get_model_url m = none) ∧
    (∀ m : String, ¬ m ∈ registeredModels →
      get_env_var_name_for_model m =
        (if strContains m "generativelanguage.googleapis.com" then some "GOOGLE_AI_API_KEY"
         else if strContains m "api.openai.com" then some "OPENAI_API_KEY"
         else none)) ∧
    ((["gpt-4", "gpt-4-turbo", "gpt-4o", "gpt-4o-mini", "gpt-3.5-turbo",
       "gpt-3.5-turbo-16k"].all
        (fun m => get_env_var_name_for_model m == some "OPENAI_API_KEY")) = true) ∧
    ((["gemini-2.5-pro", "gemini-2.5-flash", "gemini-2.5-flash-lite", "gemini-1.5-pro",
       "gemini-1.5-flash"].all
        (fun m => get_env_var_name_for_model m == some "GOOGLE_AI_API_KEY")) = true) := by
  have hurl : ∀ m : String, ¬ m ∈ registeredModels → get_model_url m = none := by
    intro m h
    unfold get_model_url
    rw [List.find?_eq_none.mpr]
    · rfl
    · intro p hp hbeq
      exact h (List.mem_map.mpr ⟨p, hp, eq_of_beq hbeq⟩)
  refine ⟨hurl, ?_, by decide, by decide⟩
  intro m h
  unfold get_env_var_name_for_model get_provider_name
  rw [hurl m h]
  by_cases h1 : strContains m "generativelanguage.googleapis.com" = true
  · simp [h1]
  · rw [Bool.not_eq_true] at h1
    by_cases h2 : strContains m "api.openai.com" = true
    · simp [h1, h2]
    · rw [Bool.not_eq_true] at h2
      simp [h1, h2]

/-- C2 witness: at the unregistered name "claude-3" both lookups return
None, and at "gpt-4" the registered mapping holds. -/
theorem c2_model_lookup_witness :
    get_model_url "claude-3" = none ∧
    get_env_var_name_for_model "claude-3" = none :=
  ⟨c2_model_lookup.1 "claude-3" (by decide),
   (c2_model_lookup.2.1 "claude-3" (by decide)).trans (by decide)⟩

/-- C7: the transport-error classifier applies its rules top-to-bottom with
the first match winning: 401/authentication, then 404/not found, then
429/rate limit, then timeout/connection, else the generic kind. -/
theorem c7_error_classifier_order (msg : String) :
    ((strContains msg "401" || strContains msg "authentication") = true →
      classifyApiError msg = .authentication) ∧
    ((strContains msg "401" || strContains msg "authentication") = false →
      (strContains msg "404" || strContains msg "not found") = true →
      classifyApiError msg = .notFound) ∧
    ((strContains msg "401" || strContains msg "authentication") = false →
      (strContains msg "404" || strContains msg "not found") = false →
      (strContains msg "429" || strContains msg "rate limit") = true →
      classifyApiError msg = .rateLimit) ∧
    ((strContains msg "401" || strContains msg "authentication") = false →
      (strContains msg "404" || strContains msg "not found") = false →
      (strContains msg "429" || strContains msg "rate limit") = false →
      (strContains msg "timeout" || strContains msg "connection") = true →
      classifyApiError msg = .network) ∧
    ((strContains msg "401" || strContains msg "authentication") = false →
      (strContains msg "404" || strContains msg "not found") = false →
      (strContains msg "429" || strContains msg "rate limit") = false →
      (strContains msg "timeout" || strContains msg "connection") = false →
      classifyApiError msg = .generic) := by
  refine ⟨?_, ?_, ?_, ?_, ?_⟩
  · intro h1
    simp [classifyApiError, h1]
  · intro h1 h2
    simp [classifyApiError, h1, h2]
  · intro h1 h2 h3
    simp [classifyApiError, h1, h2, h3]
  · intro h1 h2 h3 h4
    simp [classifyApiError, h1, h2, h3, h4]
  · intro h1 h2 h3 h4
    simp [classifyApiError, h1, h2, h3, h4]

/-- C7 witness: a message mentioning both 404 and 429 is classified by the
earlier rule (not-found), and a 401 message as authentication. -/
theorem c7_error_classifier_order_witness :
    classifyApiError "status 404: rate limit hit 429" = .notFound ∧
    classifyApiError "HTTP 401 Unauthorized" = .authentication :=
  ⟨(c7_error_classifier_order "status 404: rate limit hit 429").2.1 (by decide) (by decide),
   (c7_error_classifier_order "HTTP 401 Unauthorized").1 (by decide)⟩

/-- C8: for non-empty text, the built request targets the configured model
and carries exactly two messages in order — the prompt first, the raw text
second; and the registry resolves "gpt-4" to the OpenAI endpoint. -/
theorem c8_request_build :
    (∀ model text p : String, strTrim text ≠ "" →
      buildChatRequest model text (some p) = .ok ⟨model, [p, text]⟩) ∧
    get_model_url "gpt-4" = some "https://api.openai.com/v1" := by
  constructor
  · intro model text p h
    simp [buildChatRequest, h]
  · decide

/-- C8 witness: model "gpt-4", text "hello" and the default prompt build the
two-message request, prompt first. -/
theorem c8_request_build_witness :
    buildChatRequest "gpt-4" "hello" (some PROMPT) = .ok ⟨"gpt-4", [PROMPT, "hello"]⟩ :=
  c8_request_build.1 "gpt-4" "hello" PROMPT (by decide)

/-- C1 counterexample: a response whose middle choice content is the empty
string: the code inserts a separator newline for it, yielding "a\n\nb",
while the claimed join of the non-empty contents is "a\nb". -/
theorem c1_translation_join_counterexample :
    parseResponse [some "a", some "", some "b"] = .ok "a\n\nb" ∧
    specClaimedResult [some "a", some "", some "b"] = "a\nb" ∧
    (("a\n\nb" : String) == "a\nb") = false := by
  refine ⟨by decide, by decide, by decide⟩

/-- C1 (amended): the translation result is the newline-separated join of
all present choice contents (empty strings included) in original order —
empty contents before the first non-empty one contribute no separator —
with the final string trimmed; in particular two non-empty choices yield
the two contents joined by exactly one newline (then trimmed). -/
theorem c1_translation_join :
    (∀ cs : List (Option String), cs ≠ [] →
      parseResponse cs =
        (let j := joinNL ((cs.filterMap id).dropWhile (fun c => c == ""));
         if strTrim j = "" then .error .allEmpty else .ok (strTrim j))) ∧
    (∀ a b : String, a ≠ "" → b ≠ "" → strTrim (a ++ ("\x0a" ++ b)) ≠ "" →
      parseResponse [some a, some b] = .ok (strTrim (a ++ ("\x0a" ++ b)))) := by
  constructor
  · intro cs hcs
    have hne : cs.isEmpty = false := by
      cases cs with
      | nil => exact absurd rfl hcs
      | cons a l => rfl
    rw [parseResponse, hne, joinContents_characterization]
    rfl
  · intro a b ha hb htrim
    have hjoin : joinContents [some a, some b] = a ++ ("\x0a" ++ b) := by
      simp [joinContents, stepChoice, ha, String.append_assoc]
    rw [parseResponse]
    simp only [List.isEmpty_cons, hjoin, if_neg htrim]
    rfl

/-- C1 witness: the two-choice instance at "hi" and "yo". -/
theorem c1_translation_join_witness :
    parseResponse [some "hi", some "yo"] = .ok "hi\nyo" := by
  have h := c1_translation_join.2 "hi" "yo" (by decide) (by decide) (by decide)
  exact h.trans (congrArg Except.ok (by decide))

/-- C6: parsing fails on zero choices with the no-results error and on a
non-empty response whose contents are all missing or trim-empty with the
distinct all-empty error; the two variants are distinguishable and neither
case is a success. -/
theorem c6_empty_response_errors :
    parseResponse [] = .error .noResults ∧
    (∀ cs : List (Option String), cs ≠ [] →
      (∀ oc ∈ cs, ∀ c, oc = some c → strTrim c = "") →
      parseResponse cs = .error .allEmpty) ∧
    TransError.noResults ≠ TransError.allEmpty := by
  refine ⟨rfl, ?_, by intro h; cases h⟩
  intro cs hcs hall
  have hne : cs.isEmpty = false := by
    cases cs with
    | nil => exact absurd rfl hcs
    | cons a l => rfl
  have hws : ∀ ch ∈ (joinContents cs).data, ch.isWhitespace := by
    apply joinContents_all_whitespace
    intro oc hoc c hc
    exact (strTrim_eq_empty_iff c).mp (hall oc hoc c hc)
  have htrim : strTrim (joinContents cs) = "" := (strTrim_eq_empty_iff _).mpr hws
  rw [parseResponse, hne]
  simp [htrim]

/-- C6 witness: a response whose only contents are a whitespace string and a
missing content fails with the all-empty error. -/
theorem c6_empty_response_errors_witness :
    parseResponse [some " ", none] = .error .allEmpty :=
  c6_empty_response_errors.2.1 [some " ", none] (by decide)
    (by
      intro oc hoc c hc
      rcases List.mem_cons.mp hoc with h | h
      · subst h; cases hc; decide
      · rcases List.mem_cons.mp h with h2 | h2
        · subst h2; cases hc
        · cases h2)

end Transome
